import Mathlib

/-!
# Blog server: request handlers

A shallow embedding of `src/blog/main.go` (`HomeHandler`, `PostHandler`) together with
the parts of the Go standard library the two handlers call: `database/sql` result
cursors, `path/filepath.Abs`, `html/template` loading and execution, and the
`net/http` response writer.

Everything outside the two handlers is an explicit environment (`Env`): the contents
of table `posts`, an injected read fault, the working directory and the template
files on disk.  Logging is not modelled; response headers other than the status
code are not modelled.
-/

namespace Blog

/-! ## Data model -/

/-- Go struct `Post` (main.go, lines 16-20). -/
structure Post where
  ID : Int
  Title : String
  Content : String
deriving DecidableEq, Repr

/-- The zero value `var post Post`. -/
def Post.zero : Post := ⟨0, "", ""⟩

/-- One row of table `posts` (id INTEGER PRIMARY KEY, title TEXT, content TEXT). -/
structure Row where
  id : Int
  title : String
  content : String
deriving DecidableEq, Repr

/-! ## database/sql -/

/-- Errors returned by `database/sql`: the sentinel `sql.ErrNoRows`, or any other
driver error carrying its message. -/
inductive SqlError where
  | ErrNoRows
  | other (msg : String)
deriving DecidableEq, Repr

/-- A read fault injected into the store for one request. -/
inductive ReadFault where
  /-- No fault: every read succeeds -/
  | absent
  /-- The statement itself cannot be run -/
  | query (msg : String)
  /-- Scanning the row at (0-based) position `k` of the result fails -/
  | scan (k : Nat) (msg : String)
  /-- After `k` rows have been delivered, stepping to the next row fails -/
  | step (k : Nat) (msg : String)
deriving DecidableEq, Repr

/-- A result cursor `*sql.Rows`, as the sequence of answers it gives to
`Next()` / `Scan()` / `Err()`. -/
inductive Rows (α : Type) where
  /-- Exhausted: `Next()` is false and `Err()` is nil -/
  | done
  /-- Broken: `Next()` is false and `Err()` is the given error -/
  | failed (e : SqlError)
  /-- A row: `Next()` is true; `Scan` answers `scan`; the cursor continues as `rest` -/
  | next (scan : Except SqlError α) (rest : Rows α)

/-- A cursor that delivers every row of the result. -/
def Rows.ofList {α : Type} : List α → Rows α
  | [] => .done
  | a :: as => .next (.ok a) (Rows.ofList as)

/-- A cursor whose `Scan` fails on the row at position `k`. -/
def Rows.withScanError {α : Type} (e : SqlError) : Nat → List α → Rows α
  | _, [] => .done
  | 0, _ :: as => .next (.error e) (Rows.ofList as)
  | k + 1, a :: as => .next (.ok a) (Rows.withScanError e k as)

/-- A cursor whose iteration stops with an error after `k` rows. -/
def Rows.withStepError {α : Type} (e : SqlError) : Nat → List α → Rows α
  | 0, _ => .failed e
  | _ + 1, [] => .done
  | k + 1, a :: as => .next (.ok a) (Rows.withStepError e k as)

/-- Running a statement whose result set is `result` under a read fault. -/
def openRows {α : Type} (result : List α) : ReadFault → Except SqlError (Rows α)
  | .absent => .ok (Rows.ofList result)
  | .query msg => .error (.other msg)
  | .scan k msg => .ok (Rows.withScanError (.other msg) k result)
  | .step k msg => .ok (Rows.withStepError (.other msg) k result)

/-- The store behind the global `db` handle: table `posts` in the order the engine
returns its rows, the read fault of this request, and the engine's conversion of
non-integer numeric text (real literals, padded text) to an integer key. -/
structure Store where
  posts : List Row
  fault : ReadFault
  otherNumeric : String → Option Int

/-- Value of a string of decimal digits, none when a character is not a digit. -/
def digitsValue : List Char → Nat → Option Nat
  | [], acc => some acc
  | c :: cs, acc => if c.isDigit then digitsValue cs (10 * acc + (c.toNat - 48)) else none

/-- Value of a well-formed integer literal: an optional sign and at least one digit. -/
def integerLiteral (s : String) : Option Int :=
  match s.data with
  | [] => none
  | '-' :: ds => if ds = [] then none else (digitsValue ds 0).map (fun n => -(n : Int))
  | '+' :: ds => if ds = [] then none else (digitsValue ds 0).map (fun n => (n : Int))
  | ds => (digitsValue ds 0).map (fun n => (n : Int))

/-- The integer a TEXT parameter compares as against the INTEGER column `id`
(numeric affinity): an integer literal is its value; other text is whatever the
engine makes of it, `none` when it equals no integer. -/
def Store.keyOfText (db : Store) (s : String) : Option Int :=
  match integerLiteral s with
  | some k => some k
  | none => db.otherNumeric s

/-- The call `db.Query("SELECT id, title FROM posts")`. -/
def Store.QueryIdTitle (db : Store) : Except SqlError (Rows (Int × String)) :=
  openRows (db.posts.map (fun r => (r.id, r.title))) db.fault

/-- The call `db.QueryRow("SELECT title, content FROM posts WHERE id = ?", id)`: the
underlying query, before `Row.Scan` looks at it. -/
def Store.QueryRow (db : Store) (id : String) : Except SqlError (Rows (String × String)) :=
  openRows ((db.posts.filter (fun r => decide (db.keyOfText id = some r.id))).map
    (fun r => (r.title, r.content))) db.fault

/-- Library method `(*sql.Row).Scan`: the deferred query error, `ErrNoRows` when there
is no first row (or the iteration error, if any), else the scan of the first row.  A
failure of the final `rows.Close()` is not among the modelled faults. -/
def RowScan {α : Type} : Except SqlError (Rows α) → Except SqlError α
  | .error e => .error e
  | .ok .done => .error .ErrNoRows
  | .ok (.failed e) => .error e
  | .ok (.next s _) => s

/-! ## path/filepath (Unix) -/

/-- Split at every '/'. -/
def splitSlash : List Char → List (List Char)
  | [] => [[]]
  | c :: cs =>
    if c = '/' then [] :: splitSlash cs
    else match splitSlash cs with
      | [] => [[c]]
      | h :: t => (c :: h) :: t

/-- One element of `filepath.Clean`; `stack` holds the kept elements, last first. -/
def cleanStep (rooted : Bool) (stack : List (List Char)) (seg : List Char) :
    List (List Char) :=
  if seg = [] ∨ seg = ['.'] then stack
  else if seg = ['.', '.'] then
    match stack with
    | top :: rest => if top = ['.', '.'] then seg :: stack else rest
    | [] => if rooted then [] else [seg]
  else seg :: stack

/-- Library function `filepath.Clean`. -/
def Clean (path : String) : String :=
  if path = "" then "."
  else
    let rooted := path.data.head? = some '/'
    let kept := ((splitSlash path.data).foldl (cleanStep rooted) []).reverse
    let out := String.mk (List.intercalate ['/'] kept)
    if rooted then "/" ++ out
    else if out = "" then "." else out

/-- Library function `filepath.IsAbs`. -/
def IsAbs (path : String) : Bool := path.data.head? = some '/'

/-- Library function `filepath.Join(a, b)`. -/
def Join (a b : String) : String :=
  if a ≠ "" then Clean (a ++ "/" ++ b)
  else if b ≠ "" then Clean b
  else ""

/-! ## html/template -/

/-- The value a template is executed with. -/
inductive TemplateData where
  | posts (ps : List Post)
  | post (p : Post)
deriving DecidableEq, Repr

/-- What `Execute` did: the chunks it wrote to the writer, in order, and the error
it returned (partial results may already have been written when it fails). -/
structure ExecResult where
  writes : List String
  err : Option String
deriving DecidableEq, Repr

/-- A parsed template. -/
structure Template where
  execute : TemplateData → ExecResult

/-- What `template.ParseFiles` finds at a path. -/
inductive File where
  | missing
  | malformed
  | template (t : Template)

/-! ## net/http -/

def StatusOK : Nat := 200
def StatusNotFound : Nat := 404
def StatusInternalServerError : Nat := 500

/-- The response writer: the status line once it has been written, and the body
written so far. -/
structure ResponseWriter where
  status : Option Nat
  body : String
deriving DecidableEq, Repr

/-- The writer a handler is called with. -/
def ResponseWriter.fresh : ResponseWriter := ⟨none, ""⟩

/-- Method `w.WriteHeader(code)`: ignored when the header has already been written. -/
def ResponseWriter.WriteHeader (w : ResponseWriter) (code : Nat) : ResponseWriter :=
  match w.status with
  | some _ => w
  | none => { w with status := some code }

/-- Method `w.Write(b)`: writes the header with status 200 first if it is not yet written. -/
def ResponseWriter.Write (w : ResponseWriter) (b : String) : ResponseWriter :=
  let w1 := w.WriteHeader StatusOK
  { w1 with body := w1.body ++ b }

/-- Library function `http.Error(w, msg, code)`: `WriteHeader(code)` then `Fprintln(w, msg)`. -/
def httpError (w : ResponseWriter) (msg : String) (code : Nat) : ResponseWriter :=
  (w.WriteHeader code).Write (msg ++ "\n")

/-- The status the client receives once the handler has returned. -/
def ResponseWriter.finalStatus (w : ResponseWriter) : Nat := w.status.getD StatusOK

/-- The request, as far as the handlers read it: `r.URL.Path`. -/
structure Request where
  Path : String
deriving DecidableEq, Repr

/-! ## The process environment -/

/-- Everything the handlers read from outside. -/
structure Env where
  db : Store
  /-- Result of `os.Getwd()`, `none` when it fails -/
  wd : Option String
  /-- The file `template.ParseFiles` finds at each path -/
  files : String → File

/-- Library function `filepath.Abs`; the handlers drop its error and keep the string. -/
def Abs (env : Env) (path : String) : String :=
  if IsAbs path then Clean path
  else match env.wd with
    | none => ""
    | some wd => Join wd path

/-- Library function `template.ParseFiles(path)`. -/
def ParseFiles (env : Env) (path : String) : Except String Template :=
  match env.files path with
  | .missing => .error "no such file or directory"
  | .malformed => .error "template: parse error"
  | .template t => .ok t

/-- Method `tmpl.Execute(w, data)`: every chunk is written to `w`; the error is returned. -/
def Execute (t : Template) (w : ResponseWriter) (data : TemplateData) :
    ResponseWriter × Option String :=
  let r := t.execute data
  (r.writes.foldl ResponseWriter.Write w, r.err)

/-- A call the handler makes to the outside, in the order made. -/
inductive Event where
  | Query (sql : String) (args : List String)
  | ParseFiles (path : String)
  | Execute (path : String) (data : TemplateData)
deriving DecidableEq, Repr

/-- What a handler run leaves behind. -/
structure Outcome where
  w : ResponseWriter
  trace : List Event
deriving DecidableEq, Repr

/-! ## main.go -/

/-- The statement PostHandler runs (line 111), with its parameter. -/
def postQuery (id : String) : Event :=
  .Query "SELECT title, content FROM posts WHERE id = ?" [id]

/-- The statement HomeHandler runs (line 66). -/
def homeQuery : Event := .Query "SELECT id, title FROM posts" []

/-- The loop `for rows.Next() { rows.Scan(&post.ID, &post.Title); append }` of
HomeHandler (lines 74-83); `rows.Err()` is not consulted after the loop. -/
def scanPosts : Rows (Int × String) → List Post → Except SqlError (List Post)
  | .done, posts => .ok posts
  | .failed _, posts => .ok posts
  | .next (.error e) _, _ => .error e
  | .next (.ok (id, title)) rest, posts =>
    scanPosts rest (posts ++ [{ Post.zero with ID := id, Title := title }])

/-- HomeHandler (lines 62-101). -/
def HomeHandler (env : Env) (w : ResponseWriter) (_r : Request) : Outcome :=
  let q := homeQuery
  match env.db.QueryIdTitle with
  | .error _ => ⟨httpError w "Error fetching posts" StatusInternalServerError, [q]⟩
  | .ok rows =>
    match scanPosts rows [] with
    | .error _ => ⟨httpError w "Error scanning posts" StatusInternalServerError, [q]⟩
    | .ok posts =>
      let tmplPath := Abs env "templates/index.html"
      match ParseFiles env tmplPath with
      | .error _ =>
        ⟨httpError w "Error loading template homepage" StatusInternalServerError,
          [q, .ParseFiles tmplPath]⟩
      | .ok tmpl =>
        let tr := [q, .ParseFiles tmplPath, .Execute tmplPath (.posts posts)]
        match Execute tmpl w (.posts posts) with
        | (w1, some _) =>
          ⟨httpError w1 "Error rendering homepage" StatusInternalServerError, tr⟩
        | (w1, none) => ⟨w1, tr⟩

/-- The slice expression `s[n:]` on a Go string: out of range (a panic, `none`) when
`n` exceeds the byte length, else the bytes from offset `n` on.  Offsets are byte
offsets, as in Go; an offset that falls inside a multi-byte character (where Go would
yield bytes that are not text) does not occur for a path that starts with the ASCII
route prefix. -/
def sliceFrom (s : String) (n : Nat) : Option String :=
  if n ≤ s.utf8ByteSize then some (s.extract ⟨n⟩ s.endPos) else none

/-- Line 107: `r.URL.Path[len("/blog/post/"):]`. -/
def extractID (path : String) : Option String :=
  sliceFrom path ("/blog/post/".utf8ByteSize)

/-- Lines 111-114: `QueryRow` followed by `row.Scan(&post.Title, &post.Content)`
into a zero Post. -/
def fetchPost (env : Env) (id : String) : Except SqlError Post :=
  match RowScan (env.db.QueryRow id) with
  | .error e => .error e
  | .ok (title, content) => .ok { Post.zero with Title := title, Content := content }

/-- PostHandler (lines 103-137); `none` is the slice panic. -/
def PostHandler (env : Env) (w : ResponseWriter) (r : Request) : Option Outcome :=
  match extractID r.Path with
  | none => none
  | some id =>
    let q := postQuery id
    match fetchPost env id with
    | .error _ => some ⟨httpError w "Post not found" StatusNotFound, [q]⟩
    | .ok post =>
      let tmplPath := Abs env "/templates/post.html"
      match ParseFiles env tmplPath with
      | .error _ =>
        some ⟨httpError w "Error loading template" StatusInternalServerError,
          [q, .ParseFiles tmplPath]⟩
      | .ok tmpl =>
        let tr := [q, .ParseFiles tmplPath, .Execute tmplPath (.post post)]
        match Execute tmpl w (.post post) with
        | (w1, some _) =>
          some ⟨httpError w1 "Error rendering post" StatusInternalServerError, tr⟩
        | (w1, none) => some ⟨w1, tr⟩

/-! ## Notions used to state the properties -/

/-- Go `strings.HasPrefix(s, p)`, the test by which the route "/blog/post/" is
selected for a request path. -/
def HasPrefix (s p : String) : Prop := p.data <+: s.data

instance (s p : String) : Decidable (HasPrefix s p) :=
  inferInstanceAs (Decidable (p.data <+: s.data))

/-- The final path segment in the words of the specification: the text after the
last slash of the path (the whole path if it has no slash). -/
def lastSegment (path : String) : String :=
  ⟨(path.data.reverse.takeWhile (fun c => decide (c ≠ '/'))).reverse⟩

/-- The summary of a stored post as HomeHandler scans it: id and title, the content
left at its zero value. -/
def summaryOf (row : Row) : Post := ⟨row.id, row.title, ""⟩

/-! ## Sample environments -/

/-- A post template writing the title and the content. -/
def postTemplate : Template where
  execute
    | .post p => ⟨["<h1>", p.Title, "</h1><p>", p.Content, "</p>"], none⟩
    | .posts _ => ⟨[], some "cannot evaluate field Title in type []main.Post"⟩

/-- A list template writing one item per post. -/
def listTemplate : Template where
  execute
    | .posts ps => ⟨ps.map (fun p => "<li>" ++ toString p.ID ++ " " ++ p.Title ++ "</li>"), none⟩
    | .post _ => ⟨[], some "range cannot iterate over a struct"⟩

/-- A deployment in directory /srv/blog with both templates under ./templates. -/
def deployedFiles : String → File := fun p =>
  if p = "/srv/blog/templates/index.html" then .template listTemplate
  else if p = "/srv/blog/templates/post.html" then .template postTemplate
  else .missing

/-- The store holding the single post (1, Hello, World). -/
def helloStore : Store := ⟨[⟨1, "Hello", "World"⟩], .absent, fun _ => none⟩

/-- The deployment of the Hello/World scenario. -/
def helloEnv : Env := ⟨helloStore, some "/srv/blog", deployedFiles⟩

/-- Template files found at the root of the file system only. -/
def rootFiles : String → File := fun p =>
  if p = "/templates/post.html" then .template postTemplate
  else if p = "/templates/index.html" then .template listTemplate
  else .missing

/-- The Hello/World store on a machine whose templates sit at the file-system root. -/
def rootEnv : Env := ⟨helloStore, some "/srv/blog", rootFiles⟩

/-- The Hello/World store with no template file anywhere. -/
def bareEnv : Env := ⟨helloStore, some "/srv/blog", fun _ => .missing⟩

/-- The Hello/World deployment while the database file cannot be read. -/
def ioErrorEnv : Env :=
  ⟨⟨[⟨1, "Hello", "World"⟩], .query "disk I/O error", fun _ => none⟩, some "/srv/blog",
    deployedFiles⟩

/-- A deployment with two posts where reading stops with an error after the first row. -/
def stepFaultEnv : Env :=
  ⟨⟨[⟨1, "A", "a"⟩, ⟨2, "B", "b"⟩], .step 1 "disk I/O error", fun _ => none⟩,
    some "/srv/blog", deployedFiles⟩

/-- A list template that writes an item per post and then refers to a field the
data does not have, so that execution fails after the items have been written. -/
def brokenListTemplate : Template where
  execute
    | .posts ps => ⟨ps.map (fun p => "<li>" ++ p.Title ++ "</li>"),
        some "cannot evaluate field Missing in type []main.Post"⟩
    | .post _ => ⟨[], some "range cannot iterate over a struct"⟩

/-- Files of a deployment whose list template is `brokenListTemplate`. -/
def brokenFiles : String → File := fun p =>
  if p = "/srv/blog/templates/index.html" then .template brokenListTemplate else .missing

/-- The posts 1, 2, 3 where reading stops with an error after the second row. -/
def threePostsStepEnv : Env :=
  ⟨⟨[⟨1, "A", "a"⟩, ⟨2, "B", "b"⟩, ⟨3, "C", "c"⟩], .step 2 "disk I/O error", fun _ => none⟩,
    some "/srv/blog", deployedFiles⟩

/-- The broken list template over an empty store. -/
def emptyBrokenEnv : Env := ⟨⟨[], .absent, fun _ => none⟩, some "/srv/blog", brokenFiles⟩

/-- The broken list template over the Hello/World store. -/
def helloBrokenEnv : Env := ⟨helloStore, some "/srv/blog", brokenFiles⟩

/-! ## Decimal text of integers -/

theorem digitChar_isDigit (k : Nat) (hk : k < 10) :
    (Nat.digitChar k).isDigit = true ∧ (Nat.digitChar k).toNat - 48 = k := by
  interval_cases k <;> decide

theorem digitsValue_toDigitsCore (fuel : Nat) :
    ∀ (n : Nat) (ds : List Char), n < fuel →
      digitsValue (Nat.toDigitsCore 10 fuel n ds) 0 = digitsValue ds n := by
  induction fuel with
  | zero => intro n ds h; omega
  | succ fuel ih =>
    intro n ds h
    have hd := digitChar_isDigit (n % 10) (Nat.mod_lt _ (by decide))
    unfold Nat.toDigitsCore
    by_cases h0 : n / 10 = 0
    · have hn : n % 10 = n := Nat.mod_eq_of_lt (by omega)
      rw [hn] at hd
      simp [h0, digitsValue, hd.1, hd.2, hn]
    · have hlt : n / 10 < fuel := by omega
      simp only [h0, if_false]
      rw [ih (n / 10) _ hlt]
      have hn : 10 * (n / 10) + n % 10 = n := Nat.div_add_mod n 10
      simp [digitsValue, hd.1, hd.2, hn]

theorem toDigitsCore_head (fuel : Nat) :
    ∀ (n : Nat) (ds : List Char), 0 < fuel →
      ∃ k tl, k < 10 ∧ Nat.toDigitsCore 10 fuel n ds = Nat.digitChar k :: tl := by
  induction fuel with
  | zero => intro n ds h; omega
  | succ fuel ih =>
    intro n ds _
    unfold Nat.toDigitsCore
    by_cases h0 : n / 10 = 0
    · exact ⟨n % 10, ds, Nat.mod_lt _ (by decide), by simp [h0]⟩
    · simp only [h0, if_false]
      cases fuel with
      | zero => exact ⟨n % 10, ds, Nat.mod_lt _ (by decide), by simp [Nat.toDigitsCore]⟩
      | succ f => exact ih (n / 10) _ (Nat.succ_pos f)

theorem integerLiteral_of_digit (k : Nat) (tl : List Char) (hk : k < 10) (s : String)
    (h : s.data = Nat.digitChar k :: tl) :
    integerLiteral s = (digitsValue s.data 0).map (fun n => (n : Int)) := by
  unfold integerLiteral
  rw [h]
  interval_cases k <;> rfl

theorem integerLiteral_natRepr (n : Nat) : integerLiteral (Nat.repr n) = some (n : Int) := by
  obtain ⟨k, tl, hk, hhd⟩ := toDigitsCore_head (n + 1) n [] (Nat.succ_pos n)
  have hv := digitsValue_toDigitsCore (n + 1) n [] (Nat.lt_succ_self n)
  have hdata : (Nat.repr n).data = Nat.toDigitsCore 10 (n + 1) n [] := rfl
  rw [integerLiteral_of_digit k tl hk _ (hdata.trans hhd), hdata, hv]
  rfl

theorem integerLiteral_toString (i : Int) : integerLiteral (toString i) = some i := by
  cases i with
  | ofNat n => exact integerLiteral_natRepr n
  | negSucc n =>
    obtain ⟨k, tl, hk, hhd⟩ := toDigitsCore_head (n + 2) (n + 1) [] (Nat.succ_pos _)
    have hv := digitsValue_toDigitsCore (n + 2) (n + 1) [] (Nat.lt_succ_self _)
    have hdata : (toString (Int.negSucc n)).data =
        '-' :: Nat.toDigitsCore 10 (n + 2) (n + 1) [] := rfl
    unfold integerLiteral
    rw [hdata, hhd]
    rw [hhd] at hv
    simp only [reduceCtorEq, if_false, hv]
    simp [digitsValue, Int.negSucc_eq]

/-! ## Identifier extraction -/

theorem extractID_append (rest : String) : extractID ("/blog/post/" ++ rest) = some rest := by
  have hx := String.extract_of_valid "/blog/post/".data rest.data []
  have hs : "/blog/post/" ++ rest = ⟨"/blog/post/".data ++ rest.data ++ []⟩ := by
    simp [String.ext_iff]
  have hlen : String.utf8Len "/blog/post/".data = 11 := by decide
  have hsz : "/blog/post/".utf8ByteSize = 11 := by decide
  unfold extractID sliceFrom
  rw [hs, hsz]
  simp only [String.utf8ByteSize_mk, String.utf8Len_append, String.endPos_eq, hlen,
    String.utf8Len_nil] at hx ⊢
  rw [if_pos (by omega)]
  simpa using hx

theorem lastSegment_append (rest : String) :
    lastSegment ("/blog/post/" ++ rest) = rest ↔ '/' ∉ rest.data := by
  have hd : ("/blog/post/" ++ rest).data = "/blog/post/".data ++ rest.data := rfl
  unfold lastSegment
  rw [hd, List.reverse_append]
  constructor
  · intro h hmem
    have h2 : rest.data = (List.takeWhile (fun c => decide (c ≠ '/'))
        (rest.data.reverse ++ "/blog/post/".data.reverse)).reverse :=
      (congrArg String.data h).symm
    rw [h2, List.mem_reverse] at hmem
    have := List.mem_takeWhile_imp hmem
    simp at this
  · intro h
    rw [List.takeWhile_append_of_pos]
    · have : List.takeWhile (fun c => decide (c ≠ '/')) "/blog/post/".data.reverse = [] := by
        decide
      simp [this]
    · intro c hc
      rw [List.mem_reverse] at hc
      simp only [ne_eq, decide_not, Bool.not_eq_eq_eq_not, Bool.not_true, decide_eq_false_iff_not]
      rintro rfl
      exact h hc

/-! ## The response writer -/

theorem httpError_fresh (msg : String) (code : Nat) :
    httpError .fresh msg code = ⟨some code, msg ++ "\n"⟩ := rfl

theorem foldl_Write_status (ws : List String) :
    ∀ w : ResponseWriter, (ws.foldl ResponseWriter.Write w).status =
      if ws = [] then w.status else some (w.status.getD StatusOK) := by
  induction ws with
  | nil => intro w; rfl
  | cons b bs ih =>
    intro w
    rw [List.foldl_cons, ih]
    cases hw : w.status <;> cases bs <;>
      simp [ResponseWriter.Write, ResponseWriter.WriteHeader, hw]

theorem httpError_status (w : ResponseWriter) (msg : String) (code : Nat) :
    (httpError w msg code).status = some (w.status.getD code) := by
  cases hw : w.status <;>
    simp [httpError, ResponseWriter.Write, ResponseWriter.WriteHeader, hw]

/-! ## Shape of a PostHandler run -/

theorem Abs_post (env : Env) : Abs env "/templates/post.html" = "/templates/post.html" := by
  unfold Abs
  rw [if_pos (by decide)]
  decide

theorem PostHandler_fetch_error (env : Env) (w : ResponseWriter) (r : Request) (id : String)
    (e : SqlError) (hid : extractID r.Path = some id) (hf : fetchPost env id = .error e) :
    PostHandler env w r = some ⟨httpError w "Post not found" StatusNotFound, [postQuery id]⟩ := by
  simp [PostHandler, hid, hf, postQuery]

theorem PostHandler_load_error (env : Env) (w : ResponseWriter) (r : Request) (id : String)
    (post : Post) (e : String) (hid : extractID r.Path = some id)
    (hf : fetchPost env id = .ok post)
    (hp : ParseFiles env "/templates/post.html" = .error e) :
    PostHandler env w r = some ⟨httpError w "Error loading template" StatusInternalServerError,
      [postQuery id, .ParseFiles "/templates/post.html"]⟩ := by
  simp [PostHandler, hid, hf, Abs_post, hp, postQuery]

theorem PostHandler_loaded (env : Env) (w : ResponseWriter) (r : Request) (id : String)
    (post : Post) (tmpl : Template) (hid : extractID r.Path = some id)
    (hf : fetchPost env id = .ok post)
    (hp : ParseFiles env "/templates/post.html" = .ok tmpl) :
    PostHandler env w r = some
      ⟨match (tmpl.execute (.post post)).err with
        | some _ => httpError ((tmpl.execute (.post post)).writes.foldl ResponseWriter.Write w)
            "Error rendering post" StatusInternalServerError
        | none => (tmpl.execute (.post post)).writes.foldl ResponseWriter.Write w,
       [postQuery id, .ParseFiles "/templates/post.html",
        .Execute "/templates/post.html" (.post post)]⟩ := by
  simp only [PostHandler, hid, hf, Abs_post, hp, postQuery, Execute]
  cases (tmpl.execute (.post post)).err <;> rfl

theorem ParseFiles_cases (env : Env) (path : String) :
    (∃ e, ParseFiles env path = .error e ∧ (env.files path = .missing ∨ env.files path = .malformed))
    ∨ (∃ t, ParseFiles env path = .ok t ∧ env.files path = .template t) := by
  unfold ParseFiles
  cases h : env.files path <;> simp

theorem PostHandler_some (env : Env) (w : ResponseWriter) (r : Request) (id : String)
    (hid : extractID r.Path = some id) : ∃ o, PostHandler env w r = some o := by
  cases hf : fetchPost env id with
  | error e => exact ⟨_, PostHandler_fetch_error env w r id e hid hf⟩
  | ok post =>
    rcases ParseFiles_cases env "/templates/post.html" with ⟨e, hp, _⟩ | ⟨t, hp, _⟩
    · exact ⟨_, PostHandler_load_error env w r id post e hid hf hp⟩
    · exact ⟨_, PostHandler_loaded env w r id post t hid hf hp⟩

/-! ## Identifier extraction: the properties -/

/-- C10: for every request path that begins with the registered prefix "/blog/post/",
the slice that extracts the identifier is in bounds (PostHandler does not panic), the
identifier `id` satisfies "/blog/post/" ++ id = path, and for the path equal to the
prefix the identifier is the empty string. -/
theorem extractID_of_routed_path (path : String) (h : HasPrefix path "/blog/post/") :
    (∃ id, extractID path = some id ∧ "/blog/post/" ++ id = path ∧
      ∀ (env : Env) (w : ResponseWriter), ∃ o, PostHandler env w ⟨path⟩ = some o) ∧
    (path = "/blog/post/" → extractID path = some "") := by
  obtain ⟨t, ht⟩ := h
  have hpath : path = "/blog/post/" ++ (⟨t⟩ : String) := by
    rw [String.ext_iff, ← ht]; rfl
  refine ⟨⟨⟨t⟩, ?_, hpath.symm, ?_⟩, ?_⟩
  · rw [hpath]; exact extractID_append _
  · intro env w
    exact PostHandler_some env w ⟨path⟩ ⟨t⟩ (by rw [hpath]; exact extractID_append _)
  · intro hp
    rw [hp]; decide

/-- Witness for C10 at the paths /blog/post/42 and /blog/post/. -/
theorem extractID_of_routed_path_witness :
    HasPrefix "/blog/post/42" "/blog/post/" ∧
    (∃ id, extractID "/blog/post/42" = some id ∧ "/blog/post/" ++ id = "/blog/post/42" ∧
      ∀ (env : Env) (w : ResponseWriter), ∃ o, PostHandler env w ⟨"/blog/post/42"⟩ = some o) ∧
    ("/blog/post/42" = "/blog/post/" → extractID "/blog/post/42" = some "") :=
  ⟨by decide, extractID_of_routed_path "/blog/post/42" (by decide)⟩

/-- C8 as stated fails: for the path /blog/post/a/1 the identifier handed to the store
query is "a/1", while the final path segment is "1". -/
theorem final_segment_counterexample :
    (PostHandler helloEnv .fresh ⟨"/blog/post/a/1"⟩).map (fun o => o.trace.head?)
      = some (some (postQuery "a/1")) ∧
    lastSegment "/blog/post/a/1" = "1" ∧
    extractID "/blog/post/a/1" ≠ some (lastSegment "/blog/post/a/1") := by
  decide

/-- C8 amended: for every request path "/blog/post/" ++ rest, the identifier handed to
the store query is the whole remainder `rest` of the path after the prefix; it is the
final path segment exactly when `rest` contains no slash. -/
theorem postHandler_queries_remainder (env : Env) (w : ResponseWriter) (rest : String) :
    (∃ o, PostHandler env w ⟨"/blog/post/" ++ rest⟩ = some o ∧
      o.trace.head? = some (postQuery rest)) ∧
    (lastSegment ("/blog/post/" ++ rest) = rest ↔ '/' ∉ rest.data) := by
  refine ⟨?_, lastSegment_append rest⟩
  have hid : extractID (Request.mk ("/blog/post/" ++ rest)).Path = some rest :=
    extractID_append rest
  cases hf : fetchPost env rest with
  | error e => exact ⟨_, PostHandler_fetch_error env w _ rest e hid hf, rfl⟩
  | ok post =>
    rcases ParseFiles_cases env "/templates/post.html" with ⟨e, hp, _⟩ | ⟨t, hp, _⟩
    · exact ⟨_, PostHandler_load_error env w _ rest post e hid hf hp, rfl⟩
    · exact ⟨_, PostHandler_loaded env w _ rest post t hid hf hp, rfl⟩

/-- Witness for C8 amended: on /blog/post/a/1 the identifier queried is "a/1", which is
not the final segment since it contains a slash. -/
theorem postHandler_queries_remainder_witness :
    (∃ o, PostHandler helloEnv .fresh ⟨"/blog/post/" ++ "a/1"⟩ = some o ∧
      o.trace.head? = some (postQuery "a/1")) ∧
    (lastSegment ("/blog/post/" ++ "a/1") = "a/1" ↔ '/' ∉ "a/1".data) :=
  postHandler_queries_remainder helloEnv .fresh "a/1"

/-! ## Shape of a HomeHandler run -/

theorem HomeHandler_load_error (env : Env) (w : ResponseWriter) (r : Request)
    (rows : Rows (Int × String)) (posts : List Post) (e : String)
    (hq : env.db.QueryIdTitle = .ok rows) (hs : scanPosts rows [] = .ok posts)
    (hp : ParseFiles env (Abs env "templates/index.html") = .error e) :
    HomeHandler env w r =
      ⟨httpError w "Error loading template homepage" StatusInternalServerError,
        [homeQuery, .ParseFiles (Abs env "templates/index.html")]⟩ := by
  simp [HomeHandler, hq, hs, hp]

theorem HomeHandler_loaded (env : Env) (w : ResponseWriter) (r : Request)
    (rows : Rows (Int × String)) (posts : List Post) (tmpl : Template)
    (hq : env.db.QueryIdTitle = .ok rows) (hs : scanPosts rows [] = .ok posts)
    (hp : ParseFiles env (Abs env "templates/index.html") = .ok tmpl) :
    HomeHandler env w r =
      ⟨match (tmpl.execute (.posts posts)).err with
        | some _ => httpError ((tmpl.execute (.posts posts)).writes.foldl ResponseWriter.Write w)
            "Error rendering homepage" StatusInternalServerError
        | none => (tmpl.execute (.posts posts)).writes.foldl ResponseWriter.Write w,
       [homeQuery, .ParseFiles (Abs env "templates/index.html"),
        .Execute (Abs env "templates/index.html") (.posts posts)]⟩ := by
  simp only [HomeHandler, hq, hs, hp, Execute]
  cases (tmpl.execute (.posts posts)).err <;> rfl

/-! ## Reading the store -/

theorem scanPosts_ofList (l : List (Int × String)) :
    ∀ acc : List Post, scanPosts (Rows.ofList l) acc =
      .ok (acc ++ l.map (fun x => (⟨x.1, x.2, ""⟩ : Post))) := by
  induction l with
  | nil => intro acc; simp [Rows.ofList, scanPosts]
  | cons a as ih =>
    intro acc
    obtain ⟨id, title⟩ := a
    simp [Rows.ofList, scanPosts, ih, Post.zero]

theorem RowScan_empty (α : Type) (f : ReadFault) :
    ∃ e, RowScan (openRows ([] : List α) f) = .error e := by
  cases f with
  | absent => exact ⟨_, rfl⟩
  | query msg => exact ⟨_, rfl⟩
  | scan k msg => cases k <;> exact ⟨_, rfl⟩
  | step k msg => cases k <;> exact ⟨_, rfl⟩

theorem fetchPost_no_match (env : Env) (id : String)
    (hno : ∀ row ∈ env.db.posts, env.db.keyOfText id ≠ some row.id) :
    ∃ e, fetchPost env id = .error e := by
  have hfilter : env.db.posts.filter (fun r => decide (env.db.keyOfText id = some r.id)) = [] := by
    rw [List.filter_eq_nil_iff]
    intro row hrow
    simpa using hno row hrow
  obtain ⟨e, he⟩ := RowScan_empty (String × String) env.db.fault
  refine ⟨e, ?_⟩
  simp [fetchPost, Store.QueryRow, hfilter, he]

theorem filter_primary_key (posts : List Row) (row : Row)
    (hkey : (posts.map Row.id).Nodup) (hmem : row ∈ posts) :
    posts.filter (fun r => decide (row.id = r.id)) = [row] := by
  induction posts with
  | nil => cases hmem
  | cons a as ih =>
    rw [List.map_cons, List.nodup_cons] at hkey
    rcases List.mem_cons.1 hmem with h | h
    · subst h
      have hrest : as.filter (fun r => decide (row.id = r.id)) = [] := by
        rw [List.filter_eq_nil_iff]
        intro r hr
        simp only [decide_eq_true_eq]
        intro heq
        exact hkey.1 (heq ▸ List.mem_map_of_mem Row.id hr)
      rw [List.filter_cons, if_pos (by simp), hrest]
    · have hne : row.id ≠ a.id := by
        intro heq
        exact hkey.1 (heq ▸ List.mem_map_of_mem Row.id h)
      rw [List.filter_cons, if_neg (by simpa using hne), ih hkey.2 h]

theorem fetchPost_stored (env : Env) (i : Int) (t c : String)
    (hfault : env.db.fault = .absent)
    (hkey : (env.db.posts.map Row.id).Nodup)
    (hmem : (⟨i, t, c⟩ : Row) ∈ env.db.posts) :
    fetchPost env (toString i) = .ok ⟨0, t, c⟩ := by
  have hk : env.db.keyOfText (toString i) = some i := by
    simp [Store.keyOfText, integerLiteral_toString]
  have hf := filter_primary_key env.db.posts ⟨i, t, c⟩ hkey hmem
  simp only at hf
  simp [fetchPost, Store.QueryRow, hk, hf, hfault, openRows, Rows.ofList, RowScan, Post.zero]

theorem rendered_status (ws : List String) (err : Option String) (msg : String) :
    (match err with
      | some _ => httpError (ws.foldl ResponseWriter.Write .fresh) msg StatusInternalServerError
      | none => ws.foldl ResponseWriter.Write .fresh).finalStatus ≠ StatusNotFound := by
  cases err with
  | none =>
    simp only [ResponseWriter.finalStatus]
    rw [foldl_Write_status]
    split_ifs <;> simp [ResponseWriter.fresh, StatusOK, StatusNotFound]
  | some e =>
    simp only [ResponseWriter.finalStatus]
    rw [httpError_status, foldl_Write_status]
    split_ifs <;>
      simp [ResponseWriter.fresh, StatusOK, StatusNotFound, StatusInternalServerError]

theorem ParseFiles_unreadable (env : Env) (path : String)
    (h : env.files path = .missing ∨ env.files path = .malformed) :
    ∃ e, ParseFiles env path = .error e := by
  unfold ParseFiles
  rcases h with h | h <;> rw [h] <;> exact ⟨_, rfl⟩

theorem scanPosts_healthy (env : Env) (hfault : env.db.fault = .absent) :
    ∃ rows, env.db.QueryIdTitle = .ok rows ∧
      scanPosts rows [] = .ok (env.db.posts.map summaryOf) := by
  refine ⟨Rows.ofList (env.db.posts.map (fun r => (r.id, r.title))), ?_, ?_⟩
  · simp [Store.QueryIdTitle, hfault, openRows]
  · rw [scanPosts_ofList]
    simp [List.map_map, Function.comp_def, summaryOf]

/-! ## PostHandler: the properties -/

/-- C1: for every store whose reads succeed and every post stored in it with id `i`,
title `t` and content `c` (ids being unique, as the primary key makes them), PostHandler
on the path "/blog/post/" ++ (decimal text of i) obtains from the store query a Post with
Title `t` and Content `c`, does not answer 404, and that Post is the value every template
execution is bound to; the post template is executed whenever its file loads. -/
theorem postHandler_binds_stored_post (env : Env) (i : Int) (t c : String)
    (hfault : env.db.fault = .absent)
    (hkey : (env.db.posts.map Row.id).Nodup)
    (hmem : (⟨i, t, c⟩ : Row) ∈ env.db.posts) :
    fetchPost env (toString i) = .ok ⟨0, t, c⟩ ∧
    ∃ o, PostHandler env .fresh ⟨"/blog/post/" ++ toString i⟩ = some o ∧
      o.w.finalStatus ≠ StatusNotFound ∧
      postQuery (toString i) ∈ o.trace ∧
      (∀ p d, Event.Execute p d ∈ o.trace → d = .post ⟨0, t, c⟩) ∧
      (∀ tmpl, env.files (Abs env "/templates/post.html") = .template tmpl →
        Event.Execute (Abs env "/templates/post.html") (.post ⟨0, t, c⟩) ∈ o.trace) := by
  have hf := fetchPost_stored env i t c hfault hkey hmem
  have hid : extractID (Request.mk ("/blog/post/" ++ toString i)).Path = some (toString i) :=
    extractID_append _
  refine ⟨hf, ?_⟩
  rw [Abs_post]
  rcases ParseFiles_cases env "/templates/post.html" with ⟨e, hp, hfile⟩ | ⟨tm, hp, hfile⟩
  · refine ⟨_, PostHandler_load_error env .fresh _ _ _ e hid hf hp, ?_, ?_, ?_, ?_⟩
    · rw [httpError_fresh]
      simp [ResponseWriter.finalStatus, StatusNotFound, StatusInternalServerError]
    · simp
    · intro p d hd; simp [postQuery] at hd
    · intro tmpl ht
      rcases hfile with h | h <;> rw [h] at ht <;> cases ht
  · refine ⟨_, PostHandler_loaded env .fresh _ _ _ tm hid hf hp, ?_, ?_, ?_, ?_⟩
    · exact rendered_status _ _ _
    · simp
    · intro p d hd
      simp [postQuery] at hd
      exact hd.2
    · intro tmpl _
      simp

/-- Witness for C1: the post (1, Hello, World) on a machine whose post template loads. -/
theorem postHandler_binds_stored_post_witness :
    rootEnv.db.fault = .absent ∧ (⟨1, "Hello", "World"⟩ : Row) ∈ rootEnv.db.posts ∧
    fetchPost rootEnv (toString (1 : Int)) = .ok ⟨0, "Hello", "World"⟩ ∧
    ∃ o, PostHandler rootEnv .fresh ⟨"/blog/post/" ++ toString (1 : Int)⟩ = some o ∧
      o.w.finalStatus ≠ StatusNotFound ∧
      postQuery (toString (1 : Int)) ∈ o.trace ∧
      (∀ p d, Event.Execute p d ∈ o.trace → d = .post ⟨0, "Hello", "World"⟩) ∧
      (∀ tmpl, rootEnv.files (Abs rootEnv "/templates/post.html") = .template tmpl →
        Event.Execute (Abs rootEnv "/templates/post.html") (.post ⟨0, "Hello", "World"⟩)
          ∈ o.trace) :=
  ⟨rfl, by decide,
    postHandler_binds_stored_post rootEnv 1 "Hello" "World" rfl (by decide) (by decide)⟩

/-- C2: for every store (whatever its read fault) and every identifier that matches no
stored post's id, not being numeric included, PostHandler answers 404 with the message
"Post not found"; its only outside call is the query: no template is loaded or rendered. -/
theorem postHandler_unknown_id (env : Env) (id : String)
    (hno : ∀ row ∈ env.db.posts, env.db.keyOfText id ≠ some row.id) :
    PostHandler env .fresh ⟨"/blog/post/" ++ id⟩ =
      some ⟨⟨some StatusNotFound, "Post not found\n"⟩, [postQuery id]⟩ := by
  obtain ⟨e, he⟩ := fetchPost_no_match env id hno
  rw [PostHandler_fetch_error env .fresh _ id e (extractID_append id) he, httpError_fresh]
  rfl

/-- Witness for C2: the identifier "abc" against the Hello/World store. -/
theorem postHandler_unknown_id_witness :
    (∀ row ∈ helloEnv.db.posts, helloEnv.db.keyOfText "abc" ≠ some row.id) ∧
    PostHandler helloEnv .fresh ⟨"/blog/post/" ++ "abc"⟩ =
      some ⟨⟨some StatusNotFound, "Post not found\n"⟩, [postQuery "abc"]⟩ :=
  ⟨by decide, postHandler_unknown_id helloEnv "abc" (by decide)⟩

/-- C3 fails on the code: with the store query failing on a read error (not "no row
matches") while post 1 is stored, PostHandler answers 404 "Post not found" instead of
500; on the same unreadable store the sibling HomeHandler answers the failed query
with 500. -/
theorem postHandler_read_error_is_404 :
    fetchPost ioErrorEnv "1" = .error (.other "disk I/O error") ∧
    (⟨1, "Hello", "World"⟩ : Row) ∈ ioErrorEnv.db.posts ∧
    PostHandler ioErrorEnv .fresh ⟨"/blog/post/1"⟩
      = some ⟨⟨some StatusNotFound, "Post not found\n"⟩, [postQuery "1"]⟩ ∧
    (PostHandler ioErrorEnv .fresh ⟨"/blog/post/1"⟩).map (fun o => o.w.finalStatus)
      ≠ some StatusInternalServerError ∧
    HomeHandler ioErrorEnv .fresh ⟨"/blog/"⟩
      = ⟨⟨some StatusInternalServerError, "Error fetching posts\n"⟩, [homeQuery]⟩ :=
  ⟨rfl, by decide, by decide, by decide, by decide⟩

/-! ## HomeHandler: the properties -/

/-- With no read fault at all, HomeHandler scans one summary per stored post, in the
order of the rows, reaches the template load, and any template execution is bound to
that sequence. -/
theorem homeHandler_faultless_listing (env : Env) (r : Request)
    (hfault : env.db.fault = .absent) :
    (env.db.posts.map summaryOf).length = env.db.posts.length ∧
    Event.ParseFiles (Abs env "templates/index.html") ∈ (HomeHandler env .fresh r).trace ∧
    (∀ p d, Event.Execute p d ∈ (HomeHandler env .fresh r).trace →
      d = .posts (env.db.posts.map summaryOf)) ∧
    (∀ tmpl, env.files (Abs env "templates/index.html") = .template tmpl →
      Event.Execute (Abs env "templates/index.html") (.posts (env.db.posts.map summaryOf))
        ∈ (HomeHandler env .fresh r).trace) := by
  obtain ⟨rows, hq, hs⟩ := scanPosts_healthy env hfault
  refine ⟨List.length_map _ _, ?_⟩
  rcases ParseFiles_cases env (Abs env "templates/index.html") with
    ⟨e, hp, hfile⟩ | ⟨tm, hp, hfile⟩
  · rw [HomeHandler_load_error env .fresh r rows _ e hq hs hp]
    refine ⟨by simp, ?_, ?_⟩
    · intro p d hd; simp [homeQuery] at hd
    · intro tmpl ht
      rcases hfile with h | h <;> rw [h] at ht <;> cases ht
  · rw [HomeHandler_loaded env .fresh r rows _ tm hq hs hp]
    refine ⟨by simp, ?_, ?_⟩
    · intro p d hd
      simp [homeQuery] at hd
      exact hd.2
    · intro tmpl _
      simp

/-- C4 fails on the code: the store holds the posts 1, 2, 3 and the query itself
succeeds (`db.Query` returns no error), but stepping past the second row fails; since
`rows.Err()` is never read, HomeHandler binds a sequence of two summaries to the list
template, not one entry per stored post, and answers 200. -/
theorem homeHandler_binds_incomplete_list :
    (∃ rows, threePostsStepEnv.db.QueryIdTitle = .ok rows) ∧
    threePostsStepEnv.db.posts.map summaryOf
      = [⟨1, "A", ""⟩, ⟨2, "B", ""⟩, ⟨3, "C", ""⟩] ∧
    HomeHandler threePostsStepEnv .fresh ⟨"/blog/"⟩ =
      ⟨⟨some StatusOK, "<li>1 A</li><li>2 B</li>"⟩,
        [homeQuery, .ParseFiles "/srv/blog/templates/index.html",
          .Execute "/srv/blog/templates/index.html"
            (.posts [⟨1, "A", ""⟩, ⟨2, "B", ""⟩])]⟩ ∧
    Event.Execute "/srv/blog/templates/index.html"
        (.posts (threePostsStepEnv.db.posts.map summaryOf))
      ∉ (HomeHandler threePostsStepEnv .fresh ⟨"/blog/"⟩).trace :=
  ⟨⟨_, rfl⟩, by decide, by decide, by decide⟩

/-- C5 fails on the code: when row iteration stops early on a read error after the
first of two rows, HomeHandler does not answer 500; it renders the list template with
the partial sequence and answers 200. -/
theorem homeHandler_renders_partial_list :
    HomeHandler stepFaultEnv .fresh ⟨"/blog/"⟩ =
      ⟨⟨some StatusOK, "<li>1 A</li>"⟩,
        [homeQuery, .ParseFiles "/srv/blog/templates/index.html",
          .Execute "/srv/blog/templates/index.html" (.posts [⟨1, "A", ""⟩])]⟩ := by
  decide

/-! ## Template loading -/

/-- C6: whenever the template file a handler resolves is missing or malformed, the
handler (HomeHandler after a successful listing, PostHandler after a successful lookup)
answers 500 and returns normally; its outside calls end with the failed load, no
template is executed. -/
theorem template_load_failure_is_500 (env : Env) (r : Request) :
    (∀ rows posts, env.db.QueryIdTitle = .ok rows → scanPosts rows [] = .ok posts →
      (env.files (Abs env "templates/index.html") = .missing ∨
        env.files (Abs env "templates/index.html") = .malformed) →
      HomeHandler env .fresh r =
        ⟨⟨some StatusInternalServerError, "Error loading template homepage\n"⟩,
          [homeQuery, .ParseFiles (Abs env "templates/index.html")]⟩) ∧
    (∀ id post, extractID r.Path = some id → fetchPost env id = .ok post →
      (env.files (Abs env "/templates/post.html") = .missing ∨
        env.files (Abs env "/templates/post.html") = .malformed) →
      PostHandler env .fresh r =
        some ⟨⟨some StatusInternalServerError, "Error loading template\n"⟩,
          [postQuery id, .ParseFiles (Abs env "/templates/post.html")]⟩) := by
  constructor
  · intro rows posts hq hs hfile
    obtain ⟨e, hp⟩ := ParseFiles_unreadable env _ hfile
    rw [HomeHandler_load_error env .fresh r rows posts e hq hs hp, httpError_fresh]
    rfl
  · intro id post hid hf hfile
    rw [Abs_post] at hfile ⊢
    obtain ⟨e, hp⟩ := ParseFiles_unreadable env _ hfile
    rw [PostHandler_load_error env .fresh r id post e hid hf hp, httpError_fresh]
    rfl

/-- Witness for C6: the Hello/World store with no template file on disk. -/
theorem template_load_failure_is_500_witness :
    HomeHandler bareEnv .fresh ⟨"/blog/post/1"⟩ =
      ⟨⟨some StatusInternalServerError, "Error loading template homepage\n"⟩,
        [homeQuery, .ParseFiles (Abs bareEnv "templates/index.html")]⟩ ∧
    PostHandler bareEnv .fresh ⟨"/blog/post/1"⟩ =
      some ⟨⟨some StatusInternalServerError, "Error loading template\n"⟩,
        [postQuery "1", .ParseFiles (Abs bareEnv "/templates/post.html")]⟩ :=
  ⟨(template_load_failure_is_500 bareEnv ⟨"/blog/post/1"⟩).1
      (Rows.ofList [(1, "Hello")]) [⟨1, "Hello", ""⟩] rfl rfl (Or.inl rfl),
   (template_load_failure_is_500 bareEnv ⟨"/blog/post/1"⟩).2
      "1" ⟨0, "Hello", "World"⟩ (by decide) rfl (Or.inl rfl)⟩

/-- C7 fails on the code: with the single post (1, Hello, World) stored and both
templates present in ./templates under the working directory /srv/blog, HomeHandler
loads /srv/blog/templates/index.html, but PostHandler looks for /templates/post.html at
the file-system root and answers /blog/post/1 with 500 "Error loading template" instead
of the rendered page; /blog/post/2 is answered 404. -/
theorem postHandler_misses_deployed_template :
    Event.ParseFiles "/srv/blog/templates/index.html"
      ∈ (HomeHandler helloEnv .fresh ⟨"/blog/"⟩).trace ∧
    (HomeHandler helloEnv .fresh ⟨"/blog/"⟩).w = ⟨some StatusOK, "<li>1 Hello</li>"⟩ ∧
    PostHandler helloEnv .fresh ⟨"/blog/post/1"⟩ =
      some ⟨⟨some StatusInternalServerError, "Error loading template\n"⟩,
        [postQuery "1", .ParseFiles "/templates/post.html"]⟩ ∧
    PostHandler helloEnv .fresh ⟨"/blog/post/2"⟩ =
      some ⟨⟨some StatusNotFound, "Post not found\n"⟩, [postQuery "2"]⟩ := by
  decide

/-! ## Error responses -/

/-- C9 fails on the code: two HomeHandler runs that both fail at the template render,
with the same template and differing only in the store contents, produce different
responses.  Over the empty store the answer is the fixed 500 "Error rendering
homepage"; over the Hello/World store the template has already streamed an item, so the
`http.Error(..., StatusInternalServerError)` call of lines 97-100 comes too late: the
status sent is 200 and the body is the partial page followed by the message. -/
theorem render_failure_streams_partial_page :
    (brokenListTemplate.execute (.posts [])).err ≠ none ∧
    (brokenListTemplate.execute (.posts [⟨1, "Hello", ""⟩])).err ≠ none ∧
    (HomeHandler emptyBrokenEnv .fresh ⟨"/blog/"⟩).w
      = ⟨some StatusInternalServerError, "Error rendering homepage\n"⟩ ∧
    (HomeHandler helloBrokenEnv .fresh ⟨"/blog/"⟩).w
      = ⟨some StatusOK, "<li>Hello</li>Error rendering homepage\n"⟩ ∧
    (HomeHandler emptyBrokenEnv .fresh ⟨"/blog/"⟩).w
      ≠ (HomeHandler helloBrokenEnv .fresh ⟨"/blog/"⟩).w := by
  decide

end Blog
